import Mathlib

/-!
# WalB storage engine: verification of the specification against the code

Shallow embedding of the WalB block-level WAL driver.
Sources embedded here:
* `src/include/walb_log_device.h` - on-disk layout arithmetic and the
  super-sector / snapshot-sector formats;
* `src/module/none_req.c` (the `walb.c` part) - the ioctl handlers
  (`set_oldest_lsid`, `create_snapshot`, `resize`, `clear_log`, `freeze`,
  `melt`), the freeze state machine, and device preparation.

Helpers that the module calls but whose bodies live outside `src/`
(superblock sync, sector I/O, logpack validation, the snapshot store and
the redo engine) are modelled from the specification; each such definition
carries a doc comment starting with `Modelled from the spec:`.

Machine integers are represented by `Nat`; the code never relies on u64
wrap-around in the embedded paths (lsids are monotone and bounded by
`INVALID_LSID`), so no explicit `% 2^64` is needed.  The build is the
`WALB_FAST_ALGORITHM` configuration, in which the `completed` lsid is a
real member of the lsid set (the specification describes this
configuration).
-/

namespace Walb

/-- PAGE_SIZE of the target architecture (4 KiB), as assumed by
`walb_log_device.h`. -/
def PAGE_SIZE : Nat := 4096

/-- INVALID_LSID: the all-ones 64-bit value (spec section 3). -/
def INVALID_LSID : Nat := 2 ^ 64 - 1

/-- Modelled from the spec: MAX_LSID is the largest valid lsid,
`INVALID_LSID - 1` (the constant lives in `walb/walb.h`, outside src). -/
def MAX_LSID : Nat := 2 ^ 64 - 2

/-- `sizeof(walb_snapshot_sector_t)`: a u32 checksum plus a u32 occupancy
bitmap; the flexible record array contributes 0 (walb_log_device.h). -/
def sizeof_walb_snapshot_sector : Nat := 8

/-- `sizeof(walb_snapshot_record_t)`: u64 lsid + u64 timestamp + u8 name[64]
(walb_log_device.h). -/
def sizeof_walb_snapshot_record : Nat := 80

/-- `max_n_snapshots_in_sector` from walb_log_device.h: number of snapshot
records in one sector, capped at 32 by the bitmap width. -/
def max_n_snapshots_in_sector (sector_size : Nat) : Nat :=
  let size := (sector_size - sizeof_walb_snapshot_sector) / sizeof_walb_snapshot_record
  if size < 32 then size else 32

/-- `get_metadata_size` from walb_log_device.h: number of snapshot metadata
sectors needed to keep `n_snapshots` records. -/
def get_metadata_size (sector_size n_snapshots : Nat) : Nat :=
  let t := max_n_snapshots_in_sector sector_size
  (n_snapshots + t - 1) / t

/-- `get_super_sector0_offset` from walb_log_device.h: the reserved page is
skipped. -/
def get_super_sector0_offset (sector_size : Nat) : Nat :=
  PAGE_SIZE / sector_size

/-- `get_metadata_offset` from walb_log_device.h. -/
def get_metadata_offset (sector_size : Nat) : Nat :=
  get_super_sector0_offset sector_size + 1

/-- `get_super_sector1_offset` from walb_log_device.h. -/
def get_super_sector1_offset (sector_size n_snapshots : Nat) : Nat :=
  get_metadata_offset sector_size + get_metadata_size sector_size n_snapshots

/-- `get_ring_buffer_offset` from walb_log_device.h. -/
def get_ring_buffer_offset (sector_size n_snapshots : Nat) : Nat :=
  get_super_sector1_offset sector_size n_snapshots + 1

/-- `struct walb_super_sector` from walb_log_device.h, extended with the
`name` and `log_checksum_salt` fields which the module version of the
header adds and `walb.c` reads and writes. -/
structure walb_super_sector where
  checksum : Nat
  sector_size : Nat
  snapshot_metadata_size : Nat
  uuid : List Nat
  name : String
  start_offset : Nat
  ring_buffer_size : Nat
  oldest_lsid : Nat
  written_lsid : Nat
  device_size : Nat
  log_checksum_salt : Nat
deriving DecidableEq

/-- `get_super_sector0_offset_2` from walb_log_device.h. -/
def get_super_sector0_offset_2 (s : walb_super_sector) : Nat :=
  get_super_sector0_offset s.sector_size

/-- `get_metadata_offset_2` from walb_log_device.h. -/
def get_metadata_offset_2 (s : walb_super_sector) : Nat :=
  get_metadata_offset s.sector_size

/-- `get_super_sector1_offset_2` from walb_log_device.h: uses the stored
`snapshot_metadata_size` field rather than recomputing it. -/
def get_super_sector1_offset_2 (s : walb_super_sector) : Nat :=
  get_metadata_offset s.sector_size + s.snapshot_metadata_size

/-- `get_ring_buffer_offset_2` from walb_log_device.h. -/
def get_ring_buffer_offset_2 (s : walb_super_sector) : Nat :=
  get_super_sector1_offset_2 s + 1

/-- Modelled from the spec: `get_offset_of_lsid_2` (module header, outside
src).  Spec section 4.5: `lsid_to_offset(lsid) = ring_start + (lsid mod
ring_size)`. -/
def get_offset_of_lsid_2 (s : walb_super_sector) (lsid : Nat) : Nat :=
  get_ring_buffer_offset_2 s + lsid % s.ring_buffer_size

/-- `struct walb_logpack_header` (module header, outside src): the parsed
view of the header sector of a log pack.  Per-record data is reduced to the
`lsid_local` list, which is all the embedded validation needs. -/
structure walb_logpack_header where
  checksum : Nat
  logpack_lsid : Nat
  total_io_size : Nat
  n_records : Nat
  record_lsid_local : List Nat
deriving DecidableEq

/-- Serialisation of a logpack header into 32-bit words, used by the
modelled checksum (the concrete word layout is irrelevant to the claims;
only that the checksum covers the header fields). -/
def logpack_header_words (h : walb_logpack_header) : List Nat :=
  h.logpack_lsid % 2 ^ 32 :: h.logpack_lsid / 2 ^ 32 ::
    h.total_io_size :: h.n_records :: h.record_lsid_local

/-- Modelled from the spec (section 4.1): fold the buffer as 32-bit words
starting from the salt, sum modulo 2^32, take the bitwise complement.  The
checksum field is chosen so that a buffer is valid exactly when its stored
checksum equals this value. -/
def checksum_with_salt (words : List Nat) (salt : Nat) : Nat :=
  2 ^ 32 - 1 - words.foldl (fun a w => (a + w) % 2 ^ 32) (salt % 2 ^ 32)

/-- Decidable test that a list of naturals is strictly increasing. -/
def strictly_increasing : List Nat → Bool
  | [] => true
  | [_] => true
  | a :: b :: rest => decide (a < b) && strictly_increasing (b :: rest)

/-- Modelled from the spec (section 4.4):
`is_valid_logpack_header_with_checksum` (logpack.h, outside src) recomputes
the salt-keyed checksum and the structural invariants: a pack has at least
one record, the record count matches, every `lsid_local >= 1` and the
`lsid_local`s are strictly increasing. -/
def is_valid_logpack_header_with_checksum
    (h : walb_logpack_header) (salt : Nat) : Bool :=
  decide (0 < h.n_records) &&
  decide (h.n_records = h.record_lsid_local.length) &&
  h.record_lsid_local.all (fun l => decide (1 ≤ l)) &&
  strictly_increasing h.record_lsid_local &&
  decide (h.checksum = checksum_with_salt (logpack_header_words h) salt)

/-- Content of one physical sector of the log device, at the granularity
the embedded operations need: either all zero bytes or a logpack header
image. -/
inductive SectorImg where
  | zero : SectorImg
  | logh : walb_logpack_header → SectorImg
deriving DecidableEq

/-- The all-zero logpack header: what `get_logpack_header` yields on a
zero-filled sector. -/
def zero_logpack_header : walb_logpack_header :=
  { checksum := 0, logpack_lsid := 0, total_io_size := 0,
    n_records := 0, record_lsid_local := [] }

/-- `get_logpack_header` applied to a raw sector: a zero sector parses to
the all-zero header (which is structurally invalid: `n_records = 0`). -/
def read_logpack_header (img : SectorImg) : walb_logpack_header :=
  match img with
  | SectorImg.zero => zero_logpack_header
  | SectorImg.logh h => h

/-- `struct lsid_set` (kern.h, declared outside src; the member list is
exactly the one `walb.c` reads and writes).  `completed` exists in the
WALB_FAST_ALGORITHM configuration. -/
structure lsid_set where
  latest : Nat
  flush : Nat
  completed : Nat
  permanent : Nat
  written : Nat
  prev_written : Nat
  oldest : Nat
deriving DecidableEq

/-- The all-zero lsid set written by `ioctl_wdev_clear_log`. -/
def zero_lsid_set : lsid_set :=
  { latest := 0, flush := 0, completed := 0, permanent := 0,
    written := 0, prev_written := 0, oldest := 0 }

/-- `struct walb_snapshot_record` plus its in-memory `snapshot_id`
(walb_log_device.h and the snapshot store headers). -/
structure snapshot_record where
  snapshot_id : Nat
  name : String
  lsid : Nat
  timestamp : Nat
deriving DecidableEq

/-- Freeze state machine values `FRZ_MELTED`, `FRZ_FREEZED`,
`FRZ_FREEZED_WITH_TIMEOUT` of `walb.c`. -/
inductive FreezeState where
  | melted : FreezeState
  | freezed : FreezeState
  | freezedWithTimeout : FreezeState
deriving DecidableEq

/-- The in-memory `struct walb_dev` state, restricted to the fields the
embedded operations touch.  The log device is a map from physical-sector
offset to sector content; `ldev_super` is the on-disk super image (what the
last successful super sync durably wrote).  `gd_capacity` is the gendisk
capacity of the exposed device and `log_gd_capacity` that of the walblog
device. -/
structure walb_dev where
  lsids : lsid_set
  ring_buffer_size : Nat
  ldev_size : Nat
  ddev_size : Nat
  size : Nat
  gd_capacity : Nat
  log_gd_capacity : Nat
  physical_bs : Nat
  n_snapshots : Nat
  log_checksum_salt : Nat
  lsuper0 : walb_super_sector
  ldev_super : walb_super_sector
  ldev : Nat → SectorImg
  snapshots : List snapshot_record
  next_snapshot_id : Nat
  snapshot_capacity : Nat
  freeze_state : FreezeState
  melt_scheduled : Option Nat
  is_read_only : Bool
  iocore_frozen : Bool
  checkpointing : Bool
  log_overflow : Bool

/-- Environment of one operation: values produced by the outside
collaborators (current backing-device capacities, the random source) and
the success of each kind of I/O the operation may issue.  A `true` flag
means the corresponding I/O succeeds. -/
structure Env where
  cur_ldev_size : Nat
  new_uuid : List Nat
  new_salt : Nat
  sector_alloc_ok : Bool
  sector_read_ok : Bool
  sector_write_ok : Bool
  sync_super_ok : Bool
  resize_disk_ok : Bool
  alldevs_update_ok : Bool
  snapshot_del_ok : Bool
deriving DecidableEq

/-- The EFAULT errno; the ioctl handlers return `-EFAULT` on failure. -/
def EFAULT : Int := 14

/-- Modelled from the spec (section 4.2): `walb_sync_super_block`
(super.h, outside src) snapshots the current LSID set and device size into
the in-memory super image, then durably writes super0 and super1; it
updates `prev_written` to the written lsid it persisted.  The write can
fail (env flag), in which case the on-disk image is unchanged. -/
def walb_sync_super_block (env : Env) (w : walb_dev) : Bool × walb_dev :=
  let s := { w.lsuper0 with
             oldest_lsid := w.lsids.oldest,
             written_lsid := w.lsids.written,
             device_size := w.size }
  let w := { w with lsuper0 := s,
                    lsids := { w.lsids with prev_written := w.lsids.written } }
  if env.sync_super_ok then (true, { w with ldev_super := s }) else (false, w)

/-- `walb_check_lsid_valid` from walb.c: read the sector at the ring-buffer
offset of `lsid` and check that it holds a logpack header that validates
under the current checksum salt and whose `logpack_lsid` equals `lsid`.
Sector allocation or read failure yields 0 (invalid). -/
def walb_check_lsid_valid (env : Env) (w : walb_dev) (lsid : Nat) : Bool :=
  if env.sector_alloc_ok = false then false
  else if env.sector_read_ok = false then false
  else
    let off := get_offset_of_lsid_2 w.lsuper0 lsid
    let logh := read_logpack_header (w.ldev off)
    is_valid_logpack_header_with_checksum logh w.log_checksum_salt &&
      decide (logh.logpack_lsid = lsid)

/-- `ioctl_wdev_set_oldest_lsid` from walb.c. -/
def ioctl_wdev_set_oldest_lsid (env : Env) (w : walb_dev) (lsid : Nat) :
    Int × walb_dev :=
  let written_lsid := w.lsids.written
  let oldest_lsid := w.lsids.oldest
  if (decide (lsid = written_lsid) ||
      (decide (oldest_lsid ≤ lsid) && decide (lsid < written_lsid) &&
        walb_check_lsid_valid env w lsid)) = false then
    (-EFAULT, w)
  else
    let w := { w with lsids := { w.lsids with oldest := lsid } }
    let r := walb_sync_super_block env w
    if r.1 then (0, r.2) else (-EFAULT, r.2)

/-- `get_written_lsid` from walb.c. -/
def get_written_lsid (w : walb_dev) : Nat :=
  w.lsids.written

/-- `get_completed_lsid` from walb.c (WALB_FAST_ALGORITHM configuration:
reads the `completed` member). -/
def get_completed_lsid (w : walb_dev) : Nat :=
  w.lsids.completed

/-- Modelled from the spec (section 3): `is_valid_snapshot_name`
(walb/snapshot.h, outside src): a name is a non-empty string of at most 63
characters. -/
def is_valid_snapshot_name (name : String) : Bool :=
  decide (0 < name.length) && decide (name.length ≤ 63)

/-- Modelled from the spec (section 4.9): `snapshot_add` (snapshot.h,
outside src) fails if the name already exists or all sectors are full;
otherwise it appends a record under a freshly assigned snapshot id.
Error codes: -17 name conflict, -16 store full. -/
def snapshot_add (w : walb_dev) (name : String) (lsid timestamp : Nat) :
    Int × walb_dev :=
  if w.snapshots.any (fun r => r.name == name) then (-17, w)
  else if decide (w.snapshot_capacity ≤ w.snapshots.length) then (-16, w)
  else
    (0, { w with
          snapshots := w.snapshots ++
            [{ snapshot_id := w.next_snapshot_id, name := name,
               lsid := lsid, timestamp := timestamp }],
          next_snapshot_id := w.next_snapshot_id + 1 })

/-- Modelled from the spec (section 4.9): record filtering done by
`snapshot_del_range` (snapshot.h, outside src): remove every record whose
lsid lies in `[lsid0, lsid1)`. -/
def snapshot_del_range_list (l : List snapshot_record) (lsid0 lsid1 : Nat) :
    List snapshot_record :=
  l.filter (fun r => (decide (lsid0 ≤ r.lsid) && decide (r.lsid < lsid1)) = false)

/-- `ioctl_wdev_create_snapshot` from walb.c: a record carrying
`INVALID_LSID` is given the device's current completed lsid before the
store add; buffer-size checks of the ioctl transport are not modelled. -/
def ioctl_wdev_create_snapshot (w : walb_dev) (srec : snapshot_record) :
    Int × walb_dev :=
  let srec :=
    if decide (srec.lsid = INVALID_LSID) then
      { srec with lsid := get_completed_lsid w }
    else srec
  if is_valid_snapshot_name srec.name = false then (-EFAULT, w)
  else
    let r := snapshot_add w srec.name srec.lsid srec.timestamp
    if r.1 = 0 then (0, r.2) else (-EFAULT, w)

/-- `resize_disk` from walb.c, reduced to the capacity it manages: equal
sizes succeed with no change; otherwise `set_capacity` happens first and
the subsequent `bdget_disk` may fail, so the capacity is the new one even
on failure. -/
def resize_disk (env : Env) (capacity new_size : Nat) : Bool × Nat :=
  if decide (capacity = new_size) then (true, capacity)
  else if env.resize_disk_ok then (true, new_size)
  else (false, new_size)

/-- `ioctl_wdev_resize` from walb.c. -/
def ioctl_wdev_resize (env : Env) (w : walb_dev) (val : Nat) :
    Int × walb_dev :=
  let old_size := w.gd_capacity
  let ddev_size := w.ddev_size
  let new_size := if decide (val = 0) then ddev_size else val
  if decide (new_size < old_size) then (-EFAULT, w)
  else if decide (ddev_size < new_size) then (-EFAULT, w)
  else if decide (new_size = old_size) then (0, w)
  else
    let w := { w with size := new_size, ddev_size := ddev_size }
    let r := resize_disk env w.gd_capacity new_size
    let w := { w with gd_capacity := r.2 }
    if r.1 = false then (-EFAULT, w)
    else
      let r2 := walb_sync_super_block env w
      if r2.1 then (0, r2.2) else (-EFAULT, r2.2)

/-- Modelled from the spec: `addr_pb` (walb/walb.h, outside src) converts a
logical (512-byte) block address into a physical block address. -/
def addr_pb (pbs addr : Nat) : Nat :=
  addr / (pbs / 512)

/-- `invalidate_lsid` from walb.c: overwrite the sector at the ring-buffer
offset of `lsid` with zeros.  On write failure the engine is latched
read-only; on allocation failure the function just reports failure. -/
def invalidate_lsid (env : Env) (w : walb_dev) (lsid : Nat) :
    Bool × walb_dev :=
  if env.sector_alloc_ok = false then (false, w)
  else
    let off := get_offset_of_lsid_2 w.lsuper0 lsid
    if env.sector_write_ok then
      (true, { w with ldev := fun o => if o = off then SectorImg.zero else w.ldev o })
    else
      (false, { w with is_read_only := true })

/-- `ioctl_wdev_clear_log` from walb.c.  The `goto` chains are rendered as
`Sum` values: `Sum.inl` carries the state entering an error label.
`error0` returns directly; `error1` restarts checkpointing and melts;
`error2` first restores the backed-up lsid set and ring size.  The alldevs
uuid-index update is an in-memory operation of the device registry; only
its failure matters here (env flag). -/
def ioctl_wdev_clear_log (env : Env) (w : walb_dev) : Int × walb_dev :=
  let w := { w with iocore_frozen := true, checkpointing := false }
  let old_ldev_size := w.ldev_size
  let new_ldev_size := env.cur_ldev_size
  if decide (new_ldev_size < old_ldev_size) then
    (-EFAULT, w)
  else
    let saved_lsids := w.lsids
    let old_ring_buffer_size := w.ring_buffer_size
    let w := { w with lsids := zero_lsid_set }
    let grown : Sum walb_dev walb_dev :=
      if decide (old_ldev_size < new_ldev_size) then
        let r := resize_disk env w.log_gd_capacity new_ldev_size
        if r.1 = false then
          Sum.inl { w with log_gd_capacity := r.2, is_read_only := true }
        else
          Sum.inr { w with
            log_gd_capacity := r.2,
            ldev_size := new_ldev_size,
            ring_buffer_size :=
              addr_pb w.physical_bs new_ldev_size
                - get_ring_buffer_offset w.physical_bs w.n_snapshots }
      else Sum.inr w
    match grown with
    | Sum.inl w =>
      (-EFAULT, { w with checkpointing := true, iocore_frozen := false })
    | Sum.inr w =>
      let w := { w with log_checksum_salt := env.new_salt }
      let w := { w with lsuper0 := { w.lsuper0 with
                   uuid := env.new_uuid,
                   ring_buffer_size := w.ring_buffer_size,
                   log_checksum_salt := env.new_salt } }
      let step : Sum walb_dev walb_dev :=
        let r := walb_sync_super_block env w
        if r.1 = false then Sum.inl { r.2 with is_read_only := true }
        else
          let w := r.2
          if env.alldevs_update_ok = false then
            Sum.inl { w with is_read_only := true }
          else
            let r2 := invalidate_lsid env w 0
            if r2.1 = false then Sum.inl { r2.2 with is_read_only := true }
            else
              let w := r2.2
              if env.snapshot_del_ok = false then
                Sum.inl { w with is_read_only := true }
              else
                Sum.inr { w with
                  snapshots :=
                    snapshot_del_range_list w.snapshots 0 (MAX_LSID + 1) }
      match step with
      | Sum.inl w =>
        let w := { w with lsids := saved_lsids,
                          ring_buffer_size := old_ring_buffer_size }
        (-EFAULT, { w with checkpointing := true, iocore_frozen := false })
      | Sum.inr w =>
        let w := { w with log_overflow := false }
        (0, { w with checkpointing := true, iocore_frozen := false })

/-- `cancel_melt_work` from walb.c: if a timed melt is pending, cancel it
and fall back to the plain frozen state. -/
def cancel_melt_work (w : walb_dev) : walb_dev :=
  if w.freeze_state = FreezeState.freezedWithTimeout then
    { w with freeze_state := FreezeState.freezed, melt_scheduled := none }
  else w

/-- `freeze_if_melted` from walb.c: freeze the iocore and stop
checkpointing when melted; with a positive timeout additionally queue a
delayed melt.  Seeing `FRZ_FREEZED_WITH_TIMEOUT` here is the race the code
reports as failure. -/
def freeze_if_melted (w : walb_dev) (timeout_sec : Nat) : Bool × walb_dev :=
  match w.freeze_state with
  | FreezeState.freezedWithTimeout => (false, w)
  | FreezeState.melted =>
    let w := { w with iocore_frozen := true, checkpointing := false,
                      freeze_state := FreezeState.freezed }
    if decide (0 < timeout_sec) then
      (true, { w with freeze_state := FreezeState.freezedWithTimeout,
                      melt_scheduled := some timeout_sec })
    else (true, w)
  | FreezeState.freezed =>
    if decide (0 < timeout_sec) then
      (true, { w with freeze_state := FreezeState.freezedWithTimeout,
                      melt_scheduled := some timeout_sec })
    else (true, w)

/-- `melt_if_frozen` from walb.c: cancel any pending melt work, then melt
if frozen, optionally restarting checkpointing. -/
def melt_if_frozen (w : walb_dev) (restarts_checkpointing : Bool) :
    Bool × walb_dev :=
  let w := cancel_melt_work w
  match w.freeze_state with
  | FreezeState.melted => (true, w)
  | FreezeState.freezed =>
    let w := if restarts_checkpointing then { w with checkpointing := true } else w
    (true, { w with iocore_frozen := false, freeze_state := FreezeState.melted })
  | FreezeState.freezedWithTimeout => (false, w)

/-- `ioctl_wdev_freeze` from walb.c: clip the timeout to 86400 seconds,
cancel any pending melt work, then freeze. -/
def ioctl_wdev_freeze (w : walb_dev) (val : Nat) : Int × walb_dev :=
  let timeout_sec := if decide (86400 < val) then 86400 else val
  let w := cancel_melt_work w
  let r := freeze_if_melted w timeout_sec
  if r.1 then (0, r.2) else (-EFAULT, r.2)

/-- `ioctl_wdev_melt` from walb.c. -/
def ioctl_wdev_melt (w : walb_dev) : Int × walb_dev :=
  let w := cancel_melt_work w
  let r := melt_if_frozen w true
  if r.1 then (0, r.2) else (-EFAULT, r.2)

/-- Modelled from the spec (section 4.7): the redo cursor walk.  Starting
at `written_lsid`, read the logpack header at the ring offset of the
cursor; a header that fails validation or whose `logpack_lsid` differs
from the cursor ends the log; a valid pack advances the cursor by
`1 + total_io_size`.  `fuel` bounds the walk (the ring is finite). -/
def redo_loop (salt : Nat) (ldev : Nat → SectorImg) (super : walb_super_sector) :
    Nat → Nat → Nat
  | 0, cursor => cursor
  | fuel + 1, cursor =>
    let h := read_logpack_header (ldev (get_offset_of_lsid_2 super cursor))
    if is_valid_logpack_header_with_checksum h salt &&
        decide (h.logpack_lsid = cursor) then
      redo_loop salt ldev super fuel (cursor + 1 + h.total_io_size)
    else cursor

/-- Modelled from the spec (section 4.7): `execute_redo` (redo.h, outside
src).  After the cursor walk stops, set
`written = permanent = completed = latest = flush = cursor` and persist the
super block.  Application of the payload records to the data device and
the truncation rewrite of a partially valid tail pack are elided: they do
not affect the lsid set or the super sync. -/
def execute_redo (env : Env) (w : walb_dev) : Bool × walb_dev :=
  let cursor := redo_loop w.log_checksum_salt w.ldev w.lsuper0
                  (w.ring_buffer_size + 1) w.lsids.written
  let w := { w with lsids := { w.lsids with
                written := cursor, permanent := cursor, completed := cursor,
                latest := cursor, flush := cursor } }
  walb_sync_super_block env w

/-!
## Derived predicates and concrete sample states
-/

/-- The sector at the ring-buffer offset of `lsid` holds a logpack header
that validates under the device's current checksum salt and whose
`logpack_lsid` equals `lsid`. -/
def valid_logpack_at (w : walb_dev) (lsid : Nat) : Prop :=
  is_valid_logpack_header_with_checksum
      (read_logpack_header (w.ldev (get_offset_of_lsid_2 w.lsuper0 lsid)))
      w.log_checksum_salt = true ∧
  (read_logpack_header (w.ldev (get_offset_of_lsid_2 w.lsuper0 lsid))).logpack_lsid
    = lsid

/-- Well-formedness of the freeze bookkeeping: a delayed melt is queued
exactly in the timed state, and a melted device has checkpointing running
and the iocore unfrozen (walb.c maintains both under `freeze_lock`). -/
def frz_wf (w : walb_dev) : Prop :=
  (w.freeze_state ≠ FreezeState.freezedWithTimeout → w.melt_scheduled = none) ∧
  (w.freeze_state = FreezeState.melted →
    w.checkpointing = true ∧ w.iocore_frozen = false)

/-- A concrete super sector for witnesses. -/
def sample_super : walb_super_sector :=
  { checksum := 0, sector_size := 512, snapshot_metadata_size := 17,
    uuid := [0], name := "dev0", start_offset := 0, ring_buffer_size := 1024,
    oldest_lsid := 0, written_lsid := 0, device_size := 5,
    log_checksum_salt := 7 }

/-- A concrete melted device for witnesses: freshly formatted, empty log
(every log-device sector zero), exposed size 5 of a 10-sector data
device. -/
def sample_dev : walb_dev :=
  { lsids := zero_lsid_set, ring_buffer_size := 1024, ldev_size := 2048,
    ddev_size := 10, size := 5, gd_capacity := 5, log_gd_capacity := 2048,
    physical_bs := 512, n_snapshots := 100, log_checksum_salt := 7,
    lsuper0 := sample_super, ldev_super := sample_super,
    ldev := fun _ => SectorImg.zero, snapshots := [], next_snapshot_id := 1,
    snapshot_capacity := 60, freeze_state := FreezeState.melted,
    melt_scheduled := none, is_read_only := false, iocore_frozen := false,
    checkpointing := true, log_overflow := false }

/-- `sample_dev` already frozen (no pending timed melt). -/
def frozen_dev : walb_dev :=
  { sample_dev with freeze_state := FreezeState.freezed,
                    iocore_frozen := true, checkpointing := false }

/-- A concrete environment whose I/O always succeeds and whose log device
has not changed size. -/
def env0 : Env :=
  { cur_ldev_size := 2048, new_uuid := [1, 2], new_salt := 99,
    sector_alloc_ok := true, sector_read_ok := true, sector_write_ok := true,
    sync_super_ok := true, resize_disk_ok := true, alldevs_update_ok := true,
    snapshot_del_ok := true }

/-- `env0` with a failing superblock sync. -/
def env_sync_fail : Env :=
  { env0 with sync_super_ok := false }

/-!
## Shared lemmas
-/

/-- Deleting the range `[0, MAX_LSID + 1)` removes every record whose lsid
is valid. -/
theorem snapshot_del_range_list_all (l : List snapshot_record)
    (h : ∀ r ∈ l, r.lsid ≤ MAX_LSID) :
    snapshot_del_range_list l 0 (MAX_LSID + 1) = [] := by
  induction l with
  | nil => rfl
  | cons a t ih =>
    have ha : a.lsid ≤ MAX_LSID := h a (List.mem_cons_self a t)
    have ht : ∀ r ∈ t, r.lsid ≤ MAX_LSID := fun r hr => h r (List.mem_cons_of_mem a hr)
    simp only [snapshot_del_range_list, List.filter] at ih ⊢
    have : (decide (0 ≤ a.lsid) && decide (a.lsid < MAX_LSID + 1)) = true := by
      simp [Nat.lt_succ_of_le ha]
    simp only [this]
    exact ih ht

/-!
## Claim theorems
-/

/-- C8: for every sector_size dividing PAGE_SIZE, the layout offsets (in
sectors) satisfy super0 = PAGE_SIZE / sector_size, metadata = super0 + 1,
super1 = metadata + snapshot_metadata_size, ring = super1 + 1; and the
offset family taking `n_snapshots` agrees with the family taking a super
sector whenever the stored `snapshot_metadata_size` equals
`get_metadata_size sector_size n_snapshots`. -/
theorem layout_offsets_correct (ss n : Nat) (s : walb_super_sector)
    (hdvd : ss ∣ PAGE_SIZE) :
    get_super_sector0_offset ss = PAGE_SIZE / ss ∧
    get_metadata_offset ss = get_super_sector0_offset ss + 1 ∧
    get_super_sector1_offset ss n
      = get_metadata_offset ss + get_metadata_size ss n ∧
    get_ring_buffer_offset ss n = get_super_sector1_offset ss n + 1 ∧
    get_super_sector0_offset_2 s = PAGE_SIZE / s.sector_size ∧
    get_metadata_offset_2 s = get_super_sector0_offset_2 s + 1 ∧
    get_super_sector1_offset_2 s
      = get_metadata_offset_2 s + s.snapshot_metadata_size ∧
    get_ring_buffer_offset_2 s = get_super_sector1_offset_2 s + 1 ∧
    (s.snapshot_metadata_size = get_metadata_size s.sector_size n →
      get_super_sector0_offset_2 s = get_super_sector0_offset s.sector_size ∧
      get_metadata_offset_2 s = get_metadata_offset s.sector_size ∧
      get_super_sector1_offset_2 s = get_super_sector1_offset s.sector_size n ∧
      get_ring_buffer_offset_2 s = get_ring_buffer_offset s.sector_size n) := by
  refine ⟨rfl, rfl, rfl, rfl, rfl, rfl, rfl, rfl, fun h => ⟨rfl, rfl, ?_, ?_⟩⟩
  · simp [get_super_sector1_offset_2, get_super_sector1_offset,
      get_metadata_offset_2, h]
  · simp [get_ring_buffer_offset_2, get_ring_buffer_offset,
      get_super_sector1_offset_2, get_super_sector1_offset,
      get_metadata_offset_2, h]

/-- C8 witness: instantiated at sector size 512 (which divides PAGE_SIZE),
100 snapshots and the sample super sector (whose stored metadata size is
`get_metadata_size 512 100 = 17`). -/
theorem layout_offsets_correct_witness :
    (512 : Nat) ∣ PAGE_SIZE ∧
    (get_super_sector0_offset 512 = PAGE_SIZE / 512 ∧
    get_metadata_offset 512 = get_super_sector0_offset 512 + 1 ∧
    get_super_sector1_offset 512 100
      = get_metadata_offset 512 + get_metadata_size 512 100 ∧
    get_ring_buffer_offset 512 100 = get_super_sector1_offset 512 100 + 1 ∧
    get_super_sector0_offset_2 sample_super
      = PAGE_SIZE / sample_super.sector_size ∧
    get_metadata_offset_2 sample_super
      = get_super_sector0_offset_2 sample_super + 1 ∧
    get_super_sector1_offset_2 sample_super
      = get_metadata_offset_2 sample_super
          + sample_super.snapshot_metadata_size ∧
    get_ring_buffer_offset_2 sample_super
      = get_super_sector1_offset_2 sample_super + 1 ∧
    (sample_super.snapshot_metadata_size
        = get_metadata_size sample_super.sector_size 100 →
      get_super_sector0_offset_2 sample_super
        = get_super_sector0_offset sample_super.sector_size ∧
      get_metadata_offset_2 sample_super
        = get_metadata_offset sample_super.sector_size ∧
      get_super_sector1_offset_2 sample_super
        = get_super_sector1_offset sample_super.sector_size 100 ∧
      get_ring_buffer_offset_2 sample_super
        = get_ring_buffer_offset sample_super.sector_size 100)) :=
  ⟨by decide, layout_offsets_correct 512 100 sample_super (by decide)⟩

/-- C9: for every sector size of at least 88 bytes (one snapshot-sector
header plus one record), the per-sector record capacity is
`min ((sector_size - 8) / 80) 32`, in particular at most 32, and
`get_metadata_size` is the ceiling division of `n_snapshots` by that
capacity. -/
theorem snapshot_capacity_and_metadata_size (ss n : Nat) (h : 88 ≤ ss) :
    max_n_snapshots_in_sector ss = min ((ss - 8) / 80) 32 ∧
    max_n_snapshots_in_sector ss ≤ 32 ∧
    get_metadata_size ss n = n ⌈/⌉ max_n_snapshots_in_sector ss := by
  refine ⟨?_, ?_, ?_⟩
  · simp only [max_n_snapshots_in_sector, sizeof_walb_snapshot_sector,
      sizeof_walb_snapshot_record]
    split
    · omega
    · omega
  · simp only [max_n_snapshots_in_sector, sizeof_walb_snapshot_sector,
      sizeof_walb_snapshot_record]
    split
    · omega
    · exact Nat.le_refl 32
  · rfl

/-- C9 witness: at sector size 512 the capacity is 6 and 100 records need
17 metadata sectors. -/
theorem snapshot_capacity_witness :
    88 ≤ 512 ∧
    (max_n_snapshots_in_sector 512 = min ((512 - 8) / 80) 32 ∧
     max_n_snapshots_in_sector 512 ≤ 32 ∧
     get_metadata_size 512 100 = 100 ⌈/⌉ max_n_snapshots_in_sector 512) :=
  ⟨by decide, snapshot_capacity_and_metadata_size 512 100 (by decide)⟩

/-- C6: the freeze ioctl clips the applied timeout to 86400 seconds; a
successful freeze with timeout 0 leaves the device `FRZ_FREEZED` with no
melt queued, and with a positive timeout leaves it
`FRZ_FREEZED_WITH_TIMEOUT` with an auto-melt queued after the (clipped)
timeout. -/
theorem freeze_clips_timeout_and_sets_state (w : walb_dev) (val : Nat)
    (hwf : frz_wf w) :
    (∀ t, (ioctl_wdev_freeze w val).2.melt_scheduled = some t → t ≤ 86400) ∧
    ((ioctl_wdev_freeze w val).1 = 0 → val = 0 →
      (ioctl_wdev_freeze w val).2.freeze_state = FreezeState.freezed ∧
      (ioctl_wdev_freeze w val).2.melt_scheduled = none) ∧
    ((ioctl_wdev_freeze w val).1 = 0 → 0 < val →
      (ioctl_wdev_freeze w val).2.freeze_state
        = FreezeState.freezedWithTimeout ∧
      (ioctl_wdev_freeze w val).2.melt_scheduled = some (min val 86400)) := by
  obtain ⟨hsched, _⟩ := hwf
  have hmin : (if (86400 : Nat) < val then (86400 : Nat) else val)
      = min val 86400 := by
    split <;> omega
  refine ⟨?_, ?_, ?_⟩
  · intro t ht
    rcases hst : w.freeze_state with _ | _ | _
    · by_cases hv0 : 0 < val
      · have hpos : 0 < min val 86400 := by omega
        simp [ioctl_wdev_freeze, cancel_melt_work, freeze_if_melted, hst,
          hmin, hpos] at ht
        omega
      · have hpos : ¬ 0 < min val 86400 := by omega
        have hn := hsched (by simp [hst])
        simp [ioctl_wdev_freeze, cancel_melt_work, freeze_if_melted, hst,
          hmin, hpos, hn] at ht
    · by_cases hv0 : 0 < val
      · have hpos : 0 < min val 86400 := by omega
        simp [ioctl_wdev_freeze, cancel_melt_work, freeze_if_melted, hst,
          hmin, hpos] at ht
        omega
      · have hpos : ¬ 0 < min val 86400 := by omega
        have hn := hsched (by simp [hst])
        simp [ioctl_wdev_freeze, cancel_melt_work, freeze_if_melted, hst,
          hmin, hpos, hn] at ht
    · by_cases hv0 : 0 < val
      · have hpos : 0 < min val 86400 := by omega
        simp [ioctl_wdev_freeze, cancel_melt_work, freeze_if_melted, hst,
          hmin, hpos] at ht
        omega
      · have hpos : ¬ 0 < min val 86400 := by omega
        simp [ioctl_wdev_freeze, cancel_melt_work, freeze_if_melted, hst,
          hmin, hpos] at ht
  · intro _ hval
    subst hval
    rcases hst : w.freeze_state with _ | _ | _
    · have hn := hsched (by simp [hst])
      simp [ioctl_wdev_freeze, cancel_melt_work, freeze_if_melted, hst, hn]
    · have hn := hsched (by simp [hst])
      simp [ioctl_wdev_freeze, cancel_melt_work, freeze_if_melted, hst, hn]
    · simp [ioctl_wdev_freeze, cancel_melt_work, freeze_if_melted, hst]
  · intro _ hv0
    have hpos : 0 < min val 86400 := by omega
    rcases hst : w.freeze_state with _ | _ | _ <;>
      simp [ioctl_wdev_freeze, cancel_melt_work, freeze_if_melted, hst,
        hmin, hpos]

/-- C6 witness: freezing the melted sample device with a requested timeout
of 100000 seconds (clipped to 86400). -/
theorem freeze_witness :
    frz_wf sample_dev ∧
    ((∀ t, (ioctl_wdev_freeze sample_dev 100000).2.melt_scheduled = some t →
        t ≤ 86400) ∧
     ((ioctl_wdev_freeze sample_dev 100000).1 = 0 → (100000 : Nat) = 0 →
       (ioctl_wdev_freeze sample_dev 100000).2.freeze_state
         = FreezeState.freezed ∧
       (ioctl_wdev_freeze sample_dev 100000).2.melt_scheduled = none) ∧
     ((ioctl_wdev_freeze sample_dev 100000).1 = 0 → 0 < 100000 →
       (ioctl_wdev_freeze sample_dev 100000).2.freeze_state
         = FreezeState.freezedWithTimeout ∧
       (ioctl_wdev_freeze sample_dev 100000).2.melt_scheduled
         = some (min 100000 86400))) :=
  ⟨⟨fun _ => rfl, fun _ => ⟨rfl, rfl⟩⟩,
   freeze_clips_timeout_and_sets_state sample_dev 100000
     ⟨fun _ => rfl, fun _ => ⟨rfl, rfl⟩⟩⟩

/-- C7: the melt ioctl always succeeds, leaves the device melted with the
iocore running and checkpointing restarted and no melt queued; on an
already-melted device it changes nothing; and melting twice equals melting
once. -/
theorem melt_is_idempotent (w : walb_dev) (hwf : frz_wf w) :
    (ioctl_wdev_melt w).1 = 0 ∧
    (ioctl_wdev_melt w).2.freeze_state = FreezeState.melted ∧
    (ioctl_wdev_melt w).2.iocore_frozen = false ∧
    (ioctl_wdev_melt w).2.checkpointing = true ∧
    (ioctl_wdev_melt w).2.melt_scheduled = none ∧
    (w.freeze_state = FreezeState.melted → (ioctl_wdev_melt w).2 = w) ∧
    ioctl_wdev_melt (ioctl_wdev_melt w).2 = ioctl_wdev_melt w := by
  obtain ⟨hsched, hmelt⟩ := hwf
  rcases hst : w.freeze_state with _ | _ | _
  · obtain ⟨hcp, hfr⟩ := hmelt hst
    refine ⟨?_, ?_, ?_, ?_, ?_, ?_, ?_⟩ <;>
      simp [ioctl_wdev_melt, cancel_melt_work, melt_if_frozen, hst, hcp,
        hfr, hsched (by simp [hst])]
  · refine ⟨?_, ?_, ?_, ?_, ?_, ?_, ?_⟩ <;>
      simp [ioctl_wdev_melt, cancel_melt_work, melt_if_frozen, hst,
        hsched (by simp [hst])]
  · refine ⟨?_, ?_, ?_, ?_, ?_, ?_, ?_⟩ <;>
      simp [ioctl_wdev_melt, cancel_melt_work, melt_if_frozen, hst]

/-- C7 witness: melting the frozen sample device. -/
theorem melt_witness :
    frz_wf frozen_dev ∧
    ((ioctl_wdev_melt frozen_dev).1 = 0 ∧
     (ioctl_wdev_melt frozen_dev).2.freeze_state = FreezeState.melted ∧
     (ioctl_wdev_melt frozen_dev).2.iocore_frozen = false ∧
     (ioctl_wdev_melt frozen_dev).2.checkpointing = true ∧
     (ioctl_wdev_melt frozen_dev).2.melt_scheduled = none ∧
     (frozen_dev.freeze_state = FreezeState.melted →
       (ioctl_wdev_melt frozen_dev).2 = frozen_dev) ∧
     ioctl_wdev_melt (ioctl_wdev_melt frozen_dev).2
       = ioctl_wdev_melt frozen_dev) :=
  ⟨⟨fun _ => rfl, fun h => by simp [frozen_dev, sample_dev] at h⟩,
   melt_is_idempotent frozen_dev
     ⟨fun _ => rfl, fun h => by simp [frozen_dev, sample_dev] at h⟩⟩

/-- C10: a CREATE_SNAPSHOT whose record carries `INVALID_LSID` stores the
device's current completed lsid instead; any other requested lsid is
stored unchanged. -/
theorem create_snapshot_substitutes_completed_lsid (w : walb_dev)
    (srec : snapshot_record)
    (hok : (ioctl_wdev_create_snapshot w srec).1 = 0) :
    (ioctl_wdev_create_snapshot w srec).2.snapshots =
      w.snapshots ++
        [{ snapshot_id := w.next_snapshot_id, name := srec.name,
           lsid := if srec.lsid = INVALID_LSID then get_completed_lsid w
                   else srec.lsid,
           timestamp := srec.timestamp }] := by
  by_cases hlsid : srec.lsid = INVALID_LSID <;>
    by_cases hname : is_valid_snapshot_name srec.name = true <;>
      by_cases hconf : w.snapshots.any (fun r => r.name == srec.name) = true <;>
        by_cases hfull : w.snapshot_capacity ≤ w.snapshots.length <;>
          simp [ioctl_wdev_create_snapshot, snapshot_add, hlsid, hname,
            hconf, hfull, EFAULT] at hok ⊢

/-- C10 witness: creating snapshot "s1" with `INVALID_LSID` on the sample
device stores its completed lsid (0). -/
theorem create_snapshot_witness :
    (ioctl_wdev_create_snapshot sample_dev
        { snapshot_id := 0, name := "s1", lsid := INVALID_LSID,
          timestamp := 1000 }).1 = 0 ∧
    (ioctl_wdev_create_snapshot sample_dev
        { snapshot_id := 0, name := "s1", lsid := INVALID_LSID,
          timestamp := 1000 }).2.snapshots =
      sample_dev.snapshots ++
        [{ snapshot_id := sample_dev.next_snapshot_id, name := "s1",
           lsid := if (INVALID_LSID : Nat) = INVALID_LSID
                   then get_completed_lsid sample_dev else INVALID_LSID,
           timestamp := 1000 }] :=
  ⟨by rfl,
   create_snapshot_substitutes_completed_lsid sample_dev
     { snapshot_id := 0, name := "s1", lsid := INVALID_LSID,
       timestamp := 1000 } (by rfl)⟩

/-- With working sector allocation and reads, `walb_check_lsid_valid` is
exactly the `valid_logpack_at` predicate. -/
theorem walb_check_lsid_valid_iff (env : Env) (w : walb_dev) (lsid : Nat)
    (halloc : env.sector_alloc_ok = true) (hread : env.sector_read_ok = true) :
    walb_check_lsid_valid env w lsid = true ↔ valid_logpack_at w lsid := by
  simp [walb_check_lsid_valid, valid_logpack_at, halloc, hread,
    Bool.and_eq_true]

/-- C2: SET_OLDEST_LSID succeeds exactly when the requested lsid equals
the written lsid, or lies in `[oldest, written)` and the sector at its
ring-buffer offset holds a logpack header valid under the current salt
with matching `logpack_lsid`; on success `oldest` becomes the lsid and the
super block is synced, on rejection the device is unchanged and an error
is returned. -/
theorem set_oldest_lsid_spec (env : Env) (w : walb_dev) (lsid : Nat)
    (halloc : env.sector_alloc_ok = true) (hread : env.sector_read_ok = true)
    (hsync : env.sync_super_ok = true) :
    ((ioctl_wdev_set_oldest_lsid env w lsid).1 = 0 ↔
      lsid = w.lsids.written ∨
        (w.lsids.oldest ≤ lsid ∧ lsid < w.lsids.written ∧
          valid_logpack_at w lsid)) ∧
    ((ioctl_wdev_set_oldest_lsid env w lsid).1 = 0 →
      (ioctl_wdev_set_oldest_lsid env w lsid).2.lsids.oldest = lsid ∧
      (ioctl_wdev_set_oldest_lsid env w lsid).2.ldev_super
        = (ioctl_wdev_set_oldest_lsid env w lsid).2.lsuper0 ∧
      (ioctl_wdev_set_oldest_lsid env w lsid).2.ldev_super.oldest_lsid
        = lsid) ∧
    ((ioctl_wdev_set_oldest_lsid env w lsid).1 ≠ 0 →
      (ioctl_wdev_set_oldest_lsid env w lsid).2 = w) := by
  have hcheck := walb_check_lsid_valid_iff env w lsid halloc hread
  by_cases hb : (decide (lsid = w.lsids.written) ||
      (decide (w.lsids.oldest ≤ lsid) && decide (lsid < w.lsids.written) &&
        walb_check_lsid_valid env w lsid)) = true
  · have hbP : lsid = w.lsids.written ∨
        (w.lsids.oldest ≤ lsid ∧ lsid < w.lsids.written ∧
          valid_logpack_at w lsid) := by
      rw [Bool.or_eq_true, Bool.and_eq_true, Bool.and_eq_true] at hb
      rcases hb with hb | ⟨⟨hb1, hb2⟩, hb3⟩
      · exact Or.inl (of_decide_eq_true hb)
      · exact Or.inr ⟨of_decide_eq_true hb1, of_decide_eq_true hb2,
          hcheck.mp hb3⟩
    refine ⟨?_, ?_, ?_⟩
    · simp [ioctl_wdev_set_oldest_lsid, hb, walb_sync_super_block, hsync, hbP]
    · intro _
      refine ⟨?_, ?_, ?_⟩ <;>
        simp [ioctl_wdev_set_oldest_lsid, hb, walb_sync_super_block, hsync]
    · intro hne
      exfalso
      apply hne
      simp [ioctl_wdev_set_oldest_lsid, hb, walb_sync_super_block, hsync]
  · have hbf : (decide (lsid = w.lsids.written) ||
        (decide (w.lsids.oldest ≤ lsid) && decide (lsid < w.lsids.written) &&
          walb_check_lsid_valid env w lsid)) = false :=
      Bool.not_eq_true _ ▸ eq_false_of_ne_true hb
    have hbP : ¬(lsid = w.lsids.written ∨
        (w.lsids.oldest ≤ lsid ∧ lsid < w.lsids.written ∧
          valid_logpack_at w lsid)) := by
      rw [Bool.or_eq_false_iff, Bool.and_eq_false_iff, Bool.and_eq_false_iff]
        at hbf
      rcases hbf with ⟨hb1, hb2⟩
      rintro (hc | ⟨hc1, hc2, hc3⟩)
      · exact absurd (decide_eq_true hc) (by simp [hb1])
      · rcases hb2 with (hb2 | hb2) | hb2
        · exact absurd (decide_eq_true hc1) (by simp [hb2])
        · exact absurd (decide_eq_true hc2) (by simp [hb2])
        · exact absurd (hcheck.mpr hc3) (by simp [hb2])
    refine ⟨?_, ?_, ?_⟩
    · simp [ioctl_wdev_set_oldest_lsid, hbf, EFAULT, hbP]
    · intro h0
      exfalso
      simp [ioctl_wdev_set_oldest_lsid, hbf, EFAULT] at h0
    · intro _
      simp [ioctl_wdev_set_oldest_lsid, hbf]

/-- C2 witness: setting `oldest` to 0 on the sample device (0 equals its
written lsid, so the request is accepted). -/
theorem set_oldest_lsid_witness :
    env0.sector_alloc_ok = true ∧ env0.sector_read_ok = true ∧
    env0.sync_super_ok = true ∧
    (((ioctl_wdev_set_oldest_lsid env0 sample_dev 0).1 = 0 ↔
        (0 : Nat) = sample_dev.lsids.written ∨
          (sample_dev.lsids.oldest ≤ 0 ∧ 0 < sample_dev.lsids.written ∧
            valid_logpack_at sample_dev 0)) ∧
     ((ioctl_wdev_set_oldest_lsid env0 sample_dev 0).1 = 0 →
       (ioctl_wdev_set_oldest_lsid env0 sample_dev 0).2.lsids.oldest = 0 ∧
       (ioctl_wdev_set_oldest_lsid env0 sample_dev 0).2.ldev_super
         = (ioctl_wdev_set_oldest_lsid env0 sample_dev 0).2.lsuper0 ∧
       (ioctl_wdev_set_oldest_lsid env0 sample_dev 0).2.ldev_super.oldest_lsid
         = 0) ∧
     ((ioctl_wdev_set_oldest_lsid env0 sample_dev 0).1 ≠ 0 →
       (ioctl_wdev_set_oldest_lsid env0 sample_dev 0).2 = sample_dev)) :=
  ⟨rfl, rfl, rfl, set_oldest_lsid_spec env0 sample_dev 0 rfl rfl rfl⟩

/-- C4: when the redo step completes successfully, the lsids written,
permanent, completed, latest and flush all equal the redo cursor, and the
super block has been persisted with that written lsid. -/
theorem redo_equalizes_lsids (env : Env) (w w2 : walb_dev)
    (h : execute_redo env w = (true, w2)) :
    (w2.lsids.written
        = redo_loop w.log_checksum_salt w.ldev w.lsuper0
            (w.ring_buffer_size + 1) w.lsids.written ∧
     w2.lsids.permanent = w2.lsids.written ∧
     w2.lsids.completed = w2.lsids.written ∧
     w2.lsids.latest = w2.lsids.written ∧
     w2.lsids.flush = w2.lsids.written) ∧
    w2.ldev_super = w2.lsuper0 ∧
    w2.ldev_super.written_lsid = w2.lsids.written := by
  unfold execute_redo walb_sync_super_block at h
  cases hs : env.sync_super_ok
  · rw [hs] at h
    simp at h
  · rw [hs] at h
    simp only [if_true, Prod.mk.injEq, true_and] at h
    subst h
    simp

/-- The device state after a successful redo of the freshly formatted
sample device (its log is empty, so the cursor stays at 0). -/
def redo_out : walb_dev := (execute_redo env0 sample_dev).2

/-- C4 witness: redo of the sample device succeeds and equalizes its
lsids. -/
theorem redo_witness :
    execute_redo env0 sample_dev = (true, redo_out) ∧
    ((redo_out.lsids.written
        = redo_loop sample_dev.log_checksum_salt sample_dev.ldev
            sample_dev.lsuper0 (sample_dev.ring_buffer_size + 1)
            sample_dev.lsids.written ∧
      redo_out.lsids.permanent = redo_out.lsids.written ∧
      redo_out.lsids.completed = redo_out.lsids.written ∧
      redo_out.lsids.latest = redo_out.lsids.written ∧
      redo_out.lsids.flush = redo_out.lsids.written) ∧
     redo_out.ldev_super = redo_out.lsuper0 ∧
     redo_out.ldev_super.written_lsid = redo_out.lsids.written) :=
  ⟨rfl, redo_equalizes_lsids env0 sample_dev redo_out rfl⟩

/-- C5 (amended): RESIZE only grows the device.  A nonzero request smaller
than the current exposed size fails leaving the device unchanged; a
request above the data-device capacity fails leaving the device unchanged;
a request equal to the current size succeeds with no change; otherwise
(disk resize and super sync succeeding) the exposed size becomes the
request and the super is synced with it; and in every one of these cases
`device_size ≤ data_device_size` is preserved.  (A request of 0 is
interpreted as the data-device capacity, which is why the first clause
requires the request to be nonzero.) -/
theorem resize_grow_only (env : Env) (w : walb_dev) (val : Nat)
    (hinv : w.size ≤ w.ddev_size) (hgd : w.gd_capacity = w.size)
    (hrd : env.resize_disk_ok = true) (hsync : env.sync_super_ok = true) :
    (0 < val → val < w.size →
      (ioctl_wdev_resize env w val).1 ≠ 0 ∧
      (ioctl_wdev_resize env w val).2 = w) ∧
    (w.ddev_size < val →
      (ioctl_wdev_resize env w val).1 ≠ 0 ∧
      (ioctl_wdev_resize env w val).2 = w) ∧
    (val = w.size → 0 < val →
      (ioctl_wdev_resize env w val).1 = 0 ∧
      (ioctl_wdev_resize env w val).2 = w) ∧
    (w.size < val → val ≤ w.ddev_size →
      (ioctl_wdev_resize env w val).1 = 0 ∧
      (ioctl_wdev_resize env w val).2.size = val ∧
      (ioctl_wdev_resize env w val).2.gd_capacity = val ∧
      (ioctl_wdev_resize env w val).2.ldev_super
        = (ioctl_wdev_resize env w val).2.lsuper0 ∧
      (ioctl_wdev_resize env w val).2.ldev_super.device_size = val) ∧
    (ioctl_wdev_resize env w val).2.size
      ≤ (ioctl_wdev_resize env w val).2.ddev_size := by
  refine ⟨?_, ?_, ?_, ?_, ?_⟩
  · intro hv0 hlt
    have hne : ¬ val = 0 := by omega
    have hltg : val < w.gd_capacity := by omega
    constructor <;>
      simp [ioctl_wdev_resize, hne, hltg, EFAULT]
  · intro hlt
    have hne : ¬ val = 0 := by omega
    have hnlt : ¬ val < w.gd_capacity := by omega
    constructor <;>
      simp [ioctl_wdev_resize, hne, hnlt, hlt, EFAULT]
  · intro heq hv0
    have hne : ¬ val = 0 := by omega
    have hne2 : ¬ w.gd_capacity = 0 := by omega
    have hnd2 : ¬ w.ddev_size < w.gd_capacity := by omega
    have heqg : val = w.gd_capacity := by omega
    constructor <;>
      simp [ioctl_wdev_resize, hne, hne2, hnd2, heqg]
  · intro hgt hle
    have hne : ¬ val = 0 := by omega
    have hnlt : ¬ val < w.gd_capacity := by omega
    have hnd : ¬ w.ddev_size < val := by omega
    have hneq : ¬ val = w.gd_capacity := by omega
    have hneq2 : ¬ w.gd_capacity = val := by omega
    refine ⟨?_, ?_, ?_, ?_, ?_⟩ <;>
      simp [ioctl_wdev_resize, resize_disk, walb_sync_super_block, hne,
        hnlt, hnd, hneq, hneq2, hrd, hsync]
  · by_cases hne : val = 0
    · subst hne
      by_cases heq : w.ddev_size = w.gd_capacity
      · simp [ioctl_wdev_resize, heq, hgd]
      · have hnlt : ¬ w.ddev_size < w.gd_capacity := by omega
        have hgdd : ¬ w.gd_capacity = w.ddev_size := fun hcc => heq hcc.symm
        simp [ioctl_wdev_resize, resize_disk, walb_sync_super_block, hnlt,
          heq, hgdd, hrd, hsync]
    · by_cases hlt : val < w.gd_capacity
      · simp [ioctl_wdev_resize, hne, hlt, hinv]
      · by_cases hd : w.ddev_size < val
        · simp [ioctl_wdev_resize, hne, hlt, hd, hinv]
        · by_cases heq : val = w.gd_capacity
          · have hne2 : ¬ w.gd_capacity = 0 := by omega
            have hnd2 : ¬ w.ddev_size < w.gd_capacity := by omega
            simp [ioctl_wdev_resize, hne2, hnd2, heq, hinv]
          · have hgdd : ¬ w.gd_capacity = val := fun hcc => heq hcc.symm
            have hled : val ≤ w.ddev_size := by omega
            simp [ioctl_wdev_resize, resize_disk, walb_sync_super_block,
              hne, hlt, hd, heq, hgdd, hrd, hsync, hled]

/-- C5 counterexample: on the sample device (exposed size 5, data device
10) a RESIZE request of 0 - which is smaller than the current exposed
size - succeeds and changes the exposed size to 10, contradicting the
claim that every request smaller than the current exposed size fails and
leaves the size unchanged. -/
theorem resize_zero_request_counterexample :
    (0 : Nat) < sample_dev.size ∧
    (ioctl_wdev_resize env0 sample_dev 0).1 = 0 ∧
    (ioctl_wdev_resize env0 sample_dev 0).2.size = 10 ∧
    sample_dev.size = 5 := by
  refine ⟨by decide, ?_, ?_, rfl⟩ <;> rfl

/-- C5 witness: a growing request (from 5 to 8 of a 10-sector data device)
on the sample device. -/
theorem resize_witness :
    sample_dev.size ≤ sample_dev.ddev_size ∧
    sample_dev.gd_capacity = sample_dev.size ∧
    env0.resize_disk_ok = true ∧ env0.sync_super_ok = true ∧
    ((sample_dev.size < 8 → (8 : Nat) ≤ sample_dev.ddev_size →
      (ioctl_wdev_resize env0 sample_dev 8).1 = 0 ∧
      (ioctl_wdev_resize env0 sample_dev 8).2.size = 8 ∧
      (ioctl_wdev_resize env0 sample_dev 8).2.gd_capacity = 8 ∧
      (ioctl_wdev_resize env0 sample_dev 8).2.ldev_super
        = (ioctl_wdev_resize env0 sample_dev 8).2.lsuper0 ∧
      (ioctl_wdev_resize env0 sample_dev 8).2.ldev_super.device_size = 8) ∧
     (ioctl_wdev_resize env0 sample_dev 8).2.size
       ≤ (ioctl_wdev_resize env0 sample_dev 8).2.ddev_size) :=
  ⟨by decide, rfl, rfl, rfl,
   (resize_grow_only env0 sample_dev 8 (by decide) rfl rfl rfl).2.2.2⟩

/-- C1: after a successful CLEAR_LOG all seven lsids are 0; the super
image carries the freshly generated uuid and checksum salt and has been
synced to disk; if the log device grew, the ring size was recomputed from
the new log-device size (otherwise it is unchanged); the snapshot store is
empty; the on-disk sector of the pack at lsid 0 is zeroed; the overflow
flag is clear; and the device is melted with checkpointing restarted. -/
theorem clear_log_success_postconditions (env : Env) (w : walb_dev)
    (hgrow : w.ldev_size ≤ env.cur_ldev_size)
    (halloc : env.sector_alloc_ok = true)
    (hwrite : env.sector_write_ok = true)
    (hsync : env.sync_super_ok = true)
    (hresize : env.resize_disk_ok = true)
    (halldevs : env.alldevs_update_ok = true)
    (hdel : env.snapshot_del_ok = true)
    (hsnap : ∀ r ∈ w.snapshots, r.lsid ≤ MAX_LSID) :
    (ioctl_wdev_clear_log env w).1 = 0 ∧
    (ioctl_wdev_clear_log env w).2.lsids = zero_lsid_set ∧
    (ioctl_wdev_clear_log env w).2.lsuper0.uuid = env.new_uuid ∧
    (ioctl_wdev_clear_log env w).2.lsuper0.log_checksum_salt
      = env.new_salt ∧
    (ioctl_wdev_clear_log env w).2.log_checksum_salt = env.new_salt ∧
    (ioctl_wdev_clear_log env w).2.ldev_super
      = (ioctl_wdev_clear_log env w).2.lsuper0 ∧
    (w.ldev_size < env.cur_ldev_size →
      (ioctl_wdev_clear_log env w).2.ring_buffer_size
        = addr_pb w.physical_bs env.cur_ldev_size
            - get_ring_buffer_offset w.physical_bs w.n_snapshots) ∧
    (w.ldev_size = env.cur_ldev_size →
      (ioctl_wdev_clear_log env w).2.ring_buffer_size
        = w.ring_buffer_size) ∧
    (ioctl_wdev_clear_log env w).2.snapshots = [] ∧
    (ioctl_wdev_clear_log env w).2.ldev
        (get_offset_of_lsid_2 (ioctl_wdev_clear_log env w).2.lsuper0 0)
      = SectorImg.zero ∧
    (ioctl_wdev_clear_log env w).2.log_overflow = false ∧
    (ioctl_wdev_clear_log env w).2.iocore_frozen = false ∧
    (ioctl_wdev_clear_log env w).2.checkpointing = true := by
  have hdelall := snapshot_del_range_list_all w.snapshots hsnap
  rcases eq_or_lt_of_le hgrow with heqg | hltg
  · have h1 : ¬ env.cur_ldev_size < w.ldev_size := by omega
    have h2 : ¬ w.ldev_size < env.cur_ldev_size := by omega
    refine ⟨?_, ?_, ?_, ?_, ?_, ?_, ?_, ?_, ?_, ?_, ?_, ?_, ?_⟩ <;>
      simp [ioctl_wdev_clear_log, walb_sync_super_block, invalidate_lsid,
        h1, h2, halloc, hwrite, hsync, halldevs, hdel, hdelall,
        zero_lsid_set]
  · have h1 : ¬ env.cur_ldev_size < w.ldev_size := by omega
    have h2 : ¬ w.ldev_size = env.cur_ldev_size := by omega
    by_cases hcap : w.log_gd_capacity = env.cur_ldev_size
    · refine ⟨?_, ?_, ?_, ?_, ?_, ?_, ?_, ?_, ?_, ?_, ?_, ?_, ?_⟩ <;>
        simp [ioctl_wdev_clear_log, walb_sync_super_block, invalidate_lsid,
          resize_disk, h1, h2, hltg, hcap, halloc, hwrite, hsync, hresize,
          halldevs, hdel, hdelall, zero_lsid_set]
    · refine ⟨?_, ?_, ?_, ?_, ?_, ?_, ?_, ?_, ?_, ?_, ?_, ?_, ?_⟩ <;>
        simp [ioctl_wdev_clear_log, walb_sync_super_block, invalidate_lsid,
          resize_disk, h1, h2, hltg, hcap, halloc, hwrite, hsync, hresize,
          halldevs, hdel, hdelall, zero_lsid_set]

/-- C1 witness: clearing the sample device (log device unchanged at 2048
sectors, empty snapshot store, all I/O succeeding). -/
theorem clear_log_success_witness :
    sample_dev.ldev_size ≤ env0.cur_ldev_size ∧
    env0.sector_alloc_ok = true ∧ env0.sector_write_ok = true ∧
    env0.sync_super_ok = true ∧ env0.resize_disk_ok = true ∧
    env0.alldevs_update_ok = true ∧ env0.snapshot_del_ok = true ∧
    (∀ r ∈ sample_dev.snapshots, r.lsid ≤ MAX_LSID) ∧
    ((ioctl_wdev_clear_log env0 sample_dev).1 = 0 ∧
     (ioctl_wdev_clear_log env0 sample_dev).2.lsids = zero_lsid_set ∧
     (ioctl_wdev_clear_log env0 sample_dev).2.lsuper0.uuid
       = env0.new_uuid ∧
     (ioctl_wdev_clear_log env0 sample_dev).2.lsuper0.log_checksum_salt
       = env0.new_salt ∧
     (ioctl_wdev_clear_log env0 sample_dev).2.log_checksum_salt
       = env0.new_salt ∧
     (ioctl_wdev_clear_log env0 sample_dev).2.ldev_super
       = (ioctl_wdev_clear_log env0 sample_dev).2.lsuper0 ∧
     (sample_dev.ldev_size < env0.cur_ldev_size →
       (ioctl_wdev_clear_log env0 sample_dev).2.ring_buffer_size
         = addr_pb sample_dev.physical_bs env0.cur_ldev_size
             - get_ring_buffer_offset sample_dev.physical_bs
                 sample_dev.n_snapshots) ∧
     (sample_dev.ldev_size = env0.cur_ldev_size →
       (ioctl_wdev_clear_log env0 sample_dev).2.ring_buffer_size
         = sample_dev.ring_buffer_size) ∧
     (ioctl_wdev_clear_log env0 sample_dev).2.snapshots = [] ∧
     (ioctl_wdev_clear_log env0 sample_dev).2.ldev
         (get_offset_of_lsid_2
           (ioctl_wdev_clear_log env0 sample_dev).2.lsuper0 0)
       = SectorImg.zero ∧
     (ioctl_wdev_clear_log env0 sample_dev).2.log_overflow = false ∧
     (ioctl_wdev_clear_log env0 sample_dev).2.iocore_frozen = false ∧
     (ioctl_wdev_clear_log env0 sample_dev).2.checkpointing = true) :=
  ⟨by decide, rfl, rfl, rfl, rfl, rfl, rfl,
   by intro r hr; simp [sample_dev] at hr,
   clear_log_success_postconditions env0 sample_dev (by decide) rfl rfl rfl
     rfl rfl rfl (by intro r hr; simp [sample_dev] at hr)⟩

/-- C3: if CLEAR_LOG fails to sync the super sector, or a later step
(alldevs uuid-index update, invalidation of the pack at lsid 0, snapshot
deletion) fails, then the in-memory lsid set and the ring size revert to
their values at entry, the engine is latched read-only, and an error is
returned. -/
theorem clear_log_failure_restores (env : Env) (w : walb_dev)
    (hgrow : w.ldev_size ≤ env.cur_ldev_size)
    (halloc : env.sector_alloc_ok = true)
    (hresize : env.resize_disk_ok = true)
    (hfail : env.sync_super_ok = false ∨ env.alldevs_update_ok = false ∨
      env.sector_write_ok = false ∨ env.snapshot_del_ok = false) :
    (ioctl_wdev_clear_log env w).1 ≠ 0 ∧
    (ioctl_wdev_clear_log env w).2.lsids = w.lsids ∧
    (ioctl_wdev_clear_log env w).2.ring_buffer_size
      = w.ring_buffer_size ∧
    (ioctl_wdev_clear_log env w).2.is_read_only = true := by
  rcases eq_or_lt_of_le hgrow with heqg | hltg
  · have h1 : ¬ env.cur_ldev_size < w.ldev_size := by omega
    have h2 : ¬ w.ldev_size < env.cur_ldev_size := by omega
    cases hs : env.sync_super_ok
    · refine ⟨?_, ?_, ?_, ?_⟩ <;>
        simp [ioctl_wdev_clear_log, walb_sync_super_block, invalidate_lsid,
          h1, h2, halloc, hs, EFAULT]
    · cases ha : env.alldevs_update_ok
      · refine ⟨?_, ?_, ?_, ?_⟩ <;>
          simp [ioctl_wdev_clear_log, walb_sync_super_block, invalidate_lsid,
            h1, h2, halloc, hs, ha, EFAULT]
      · cases hwk : env.sector_write_ok
        · refine ⟨?_, ?_, ?_, ?_⟩ <;>
            simp [ioctl_wdev_clear_log, walb_sync_super_block,
              invalidate_lsid, h1, h2, halloc, hs, ha, hwk, EFAULT]
        · cases hd : env.snapshot_del_ok
          · refine ⟨?_, ?_, ?_, ?_⟩ <;>
              simp [ioctl_wdev_clear_log, walb_sync_super_block,
                invalidate_lsid, h1, h2, halloc, hs, ha, hwk, hd, EFAULT]
          · exfalso
            rcases hfail with h | h | h | h <;> simp_all
  · have h1 : ¬ env.cur_ldev_size < w.ldev_size := by omega
    by_cases hcap : w.log_gd_capacity = env.cur_ldev_size <;>
    · cases hs : env.sync_super_ok
      · refine ⟨?_, ?_, ?_, ?_⟩ <;>
          simp [ioctl_wdev_clear_log, walb_sync_super_block, invalidate_lsid,
            resize_disk, h1, hltg, hcap, halloc, hresize, hs, EFAULT]
      · cases ha : env.alldevs_update_ok
        · refine ⟨?_, ?_, ?_, ?_⟩ <;>
            simp [ioctl_wdev_clear_log, walb_sync_super_block,
              invalidate_lsid, resize_disk, h1, hltg, hcap, halloc, hresize,
              hs, ha, EFAULT]
        · cases hwk : env.sector_write_ok
          · refine ⟨?_, ?_, ?_, ?_⟩ <;>
              simp [ioctl_wdev_clear_log, walb_sync_super_block,
                invalidate_lsid, resize_disk, h1, hltg, hcap, halloc,
                hresize, hs, ha, hwk, EFAULT]
          · cases hd : env.snapshot_del_ok
            · refine ⟨?_, ?_, ?_, ?_⟩ <;>
                simp [ioctl_wdev_clear_log, walb_sync_super_block,
                  invalidate_lsid, resize_disk, h1, hltg, hcap, halloc,
                  hresize, hs, ha, hwk, hd, EFAULT]
            · exfalso
              rcases hfail with h | h | h | h <;> simp_all

/-- C3 witness: clearing the sample device with a failing super sync
leaves the lsid set and ring size as at entry, read-only latched, and an
error returned. -/
theorem clear_log_failure_witness :
    sample_dev.ldev_size ≤ env_sync_fail.cur_ldev_size ∧
    env_sync_fail.sector_alloc_ok = true ∧
    env_sync_fail.resize_disk_ok = true ∧
    (env_sync_fail.sync_super_ok = false ∨
      env_sync_fail.alldevs_update_ok = false ∨
      env_sync_fail.sector_write_ok = false ∨
      env_sync_fail.snapshot_del_ok = false) ∧
    ((ioctl_wdev_clear_log env_sync_fail sample_dev).1 ≠ 0 ∧
     (ioctl_wdev_clear_log env_sync_fail sample_dev).2.lsids
       = sample_dev.lsids ∧
     (ioctl_wdev_clear_log env_sync_fail sample_dev).2.ring_buffer_size
       = sample_dev.ring_buffer_size ∧
     (ioctl_wdev_clear_log env_sync_fail sample_dev).2.is_read_only
       = true) :=
  ⟨by decide, rfl, rfl, Or.inl rfl,
   clear_log_failure_restores env_sync_fail sample_dev (by decide) rfl rfl
     (Or.inl rfl)⟩

end Walb
